import Mathlib

/-!
# Verification of the request handlers of `index.js`

The source is one Express application with four POST routes
(`/generate-text`, `/generate-from-image`, `/generate-from-document`,
`/generate-from-audio`) and the helper `fileToGenerativePart`.

The handlers are effectful JavaScript.  They are embedded here as functions
in a small exception-and-state monad `Js`:

* the state `World` holds the content of the upload directory, the trace of
  calls made to the collaborators (model client, `fs`, `mammoth`, `console`)
  and the responses written to `res`;
* the collaborators are the fields of `Env`: arbitrary functions that either
  return a value or throw a `JsError`;
* `try / catch / finally` is the combinator `Js.tryCatchFinally`.
-/

namespace GeminiApi

/-! ## Data model -/

/-- A value of `req.body.prompt` after `express.json()` parsed the body;
`undefined` is what reading an absent field gives.
Numbers are the integer-valued ones; arrays and objects are kept as their
JSON text, since the handlers only test them for truthiness and pass them on. -/
inductive JsValue where
  | undefined
  | null
  | bool (b : Bool)
  | num (n : Int)
  | str (s : String)
  | compound (json : String)
  deriving DecidableEq, Repr

/-- JavaScript truthiness. -/
def JsValue.truthy : JsValue → Bool
  | .undefined => false
  | .null => false
  | .bool b => b
  | .num n => n != 0
  | .str s => s != ""
  | .compound _ => true

/-- The test `!prompt` of line 34. -/
def jsNot (v : JsValue) : Bool := !v.truthy

/-- The expression `req.body.prompt || dflt` of lines 59, 83 and 109, on a
possibly absent text field of a multipart body (multer stores text fields as
strings). -/
def jsOr (v : Option String) (dflt : String) : String :=
  match v with
  | none => dflt
  | some s => if s != "" then s else dflt

/-- A thrown `Error` object; the handlers read only its `message`. -/
structure JsError where
  message : String
  deriving DecidableEq, Repr

/-- The object multer leaves in `req.file` for a staged upload. -/
structure Upload where
  path : String
  mimetype : String
  deriving DecidableEq, Repr

/-- A request to `/generate-text`: the `prompt` field of the JSON body. -/
structure TextRequest where
  prompt : JsValue
  deriving DecidableEq, Repr

/-- A request to a file route: the `prompt` text field of the multipart body
and `req.file`. -/
structure FileRequest where
  prompt : Option String
  file : Option Upload
  deriving DecidableEq, Repr

/-- The object `inlineData` built at lines 50-53. -/
structure InlineData where
  data : String
  mimeType : String
  deriving DecidableEq, Repr

/-- The object returned by `fileToGenerativePart`. -/
structure GenerativePart where
  inlineData : InlineData
  deriving DecidableEq, Repr

/-- The argument of `model.generateContent`: either one value (lines 38 and
91) or the two-element array `[prompt, part]` (lines 65 and 115). -/
inductive ModelInput where
  | single (v : JsValue)
  | pair (prompt : String) (part : GenerativePart)
  deriving DecidableEq, Repr

/-- The `response` of a generation result: `text()` returns or throws. -/
structure EnhancedResponse where
  text : Except JsError String

/-- The value `model.generateContent` resolves to. -/
structure GenerateContentResult where
  response : EnhancedResponse

/-- A response written to `res`: status code and the fields of the JSON
body, in order. -/
structure Response where
  status : Nat
  body : List (String × String)
  deriving DecidableEq, Repr

/-- One call to a collaborator. -/
inductive Event where
  | generateContent (input : ModelInput)
  | readFileSync (path : String)
  | extractRawText (path : String)
  | unlink (path : String)
  | consoleError (label : String) (message : String)
  deriving DecidableEq, Repr

/-- The collaborators of the handlers. `unlink p` is the `err` argument
passed to the callback of `fs.unlink`: `none` when the deletion succeeded. -/
structure Env where
  generateContent : ModelInput → Except JsError GenerateContentResult
  readFileSync : String → Except JsError (List Nat)
  extractRawText : String → Except JsError String
  unlink : String → Option JsError

/-- The observable state: files present in `uploads/`, the trace of calls
and the responses sent so far. -/
structure World where
  files : List String
  calls : List Event
  responses : List Response
  deriving DecidableEq, Repr

/-! ## The monad of handler code -/

/-- A computation that reads and changes the world and returns or throws. -/
def Js (α : Type) : Type := World → Except JsError α × World

/-- Return a value. -/
def Js.pure {α : Type} (a : α) : Js α := fun w => (.ok a, w)

/-- Sequencing; a throw skips the rest. -/
def Js.bind {α β : Type} (m : Js α) (f : α → Js β) : Js β := fun w =>
  match (m w).1 with
  | .ok a => f a (m w).2
  | .error e => (.error e, (m w).2)

instance : Monad Js where
  pure := Js.pure
  bind := Js.bind

/-- The statement `try body catch (error) handler finally fin`. -/
def Js.tryCatchFinally {α : Type} (body : Js α) (handler : JsError → Js α)
    (fin : Js Unit) : Js α := fun w =>
  let r1 := body w
  let r2 := match r1.1 with
    | .ok a => (Except.ok a, r1.2)
    | .error e => handler e r1.2
  let r3 := fin r2.2
  match r3.1 with
  | .ok _ => (r2.1, r3.2)
  | .error e => (.error e, r3.2)

/-- The statement `try body catch (error) handler`. -/
def Js.tryCatch {α : Type} (body : Js α) (handler : JsError → Js α) : Js α :=
  Js.tryCatchFinally body handler (Js.pure ())

/-- Record a call in the trace. -/
def record (e : Event) : Js Unit := fun w =>
  (.ok (), { w with calls := w.calls ++ [e] })

/-- Return or throw according to a collaborator's result. -/
def liftExcept {α : Type} (r : Except JsError α) : Js α := fun w => (r, w)

/-- The call `await model.generateContent(input)`. -/
def generateContent (env : Env) (input : ModelInput) : Js GenerateContentResult := do
  record (.generateContent input)
  liftExcept (env.generateContent input)

/-- The call `await response.text()`. -/
def responseText (response : EnhancedResponse) : Js String :=
  liftExcept response.text

/-- The call `console.error(label, error)`. -/
def consoleError (label : String) (error : JsError) : Js Unit :=
  record (.consoleError label error.message)

/-- The call `res.status(status).json(body)`. -/
def resStatusJson (status : Nat) (body : List (String × String)) : Js Unit := fun w =>
  (.ok (), { w with responses := w.responses ++ [{ status := status, body := body }] })

/-- The call `res.json(body)`: the status code stays at its default 200. -/
def resJson (body : List (String × String)) : Js Unit :=
  resStatusJson 200 body

/-! ## `/generate-text` (lines 32-46) -/

/-- The handler of `POST /generate-text`. -/
def generateText (env : Env) (req : TextRequest) : Js Unit :=
  let prompt := req.prompt
  if jsNot prompt then
    resStatusJson 400 [("error", "Prompt is required.")]
  else
    Js.tryCatch
      (do
        let result ← generateContent env (.single prompt)
        let response := result.response
        let outputText ← responseText response
        resJson [("output", outputText)])
      (fun error => do
        consoleError "Error generating text:" error
        resStatusJson 500 [("error", "Failed to generate text"), ("details", error.message)])

/-! ## `fileToGenerativePart` (lines 48-55) -/

/-- The 64 digits of the base64 alphabet used by `Buffer.toString('base64')`. -/
def base64Alphabet : List Char :=
  "ABCDEFGHIJKLMNOPQRSTUVWXYZabcdefghijklmnopqrstuvwxyz0123456789+/".toList

/-- The digit for a 6-bit value. -/
def base64Digit (i : Nat) : Char := base64Alphabet.getD i 'A'

/-- Base64 with padding, three bytes to four digits, as `Buffer` produces it. -/
def base64Chars : List Nat → List Char
  | [] => []
  | [a] => [base64Digit (a / 4), base64Digit (a % 4 * 16), '=', '=']
  | [a, b] =>
    [base64Digit (a / 4), base64Digit (a % 4 * 16 + b / 16), base64Digit (b % 16 * 4), '=']
  | a :: b :: c :: rest =>
    base64Digit (a / 4) :: base64Digit (a % 4 * 16 + b / 16) ::
      base64Digit (b % 16 * 4 + c / 64) :: base64Digit (c % 64) :: base64Chars rest

/-- The call `buffer.toString('base64')` on a buffer given by its bytes. -/
def toBase64 (bytes : List Nat) : String := String.mk (base64Chars bytes)

/-- The 6-bit value of a digit. -/
def base64Value (ch : Char) : Nat := base64Alphabet.indexOf ch

/-- Decoding of padded base64, four digits to three bytes. -/
def base64Bytes : List Char → List Nat
  | c0 :: c1 :: c2 :: c3 :: rest =>
    if c2 = '=' then
      [base64Value c0 * 4 + base64Value c1 / 16]
    else if c3 = '=' then
      [base64Value c0 * 4 + base64Value c1 / 16,
       base64Value c1 % 16 * 16 + base64Value c2 / 4]
    else
      (base64Value c0 * 4 + base64Value c1 / 16) ::
        (base64Value c1 % 16 * 16 + base64Value c2 / 4) ::
        (base64Value c2 % 4 * 64 + base64Value c3) :: base64Bytes rest
  | _ => []

/-- Base64 decoding of a string. -/
def fromBase64 (s : String) : List Nat := base64Bytes s.toList

/-- The call `fs.readFileSync(path)`. -/
def readFileSync (env : Env) (path : String) : Js (List Nat) := do
  record (.readFileSync path)
  liftExcept (env.readFileSync path)

/-- The function `fileToGenerativePart(filePath, mimeType)`. -/
def fileToGenerativePart (env : Env) (filePath mimeType : String) : Js GenerativePart := do
  let buffer ← readFileSync env filePath
  pure { inlineData := { data := toBase64 buffer, mimeType := mimeType } }

/-! ## The file routes (lines 57-129) -/

/-- The call `fs.unlink(path, callback)` with the callback of the handlers:
a failure is logged, a success removes the file from the directory. The
callback runs after the handler has returned; the embedding places its effect
at the point of the call, the last statement of the handler. -/
def unlink (env : Env) (path : String) : Js Unit := do
  record (.unlink path)
  match env.unlink path with
  | some err => consoleError "Error deleting temp file:" err
  | none => fun w => (.ok (), { w with files := w.files.filter (fun f => f != path) })

/-- The call `await mammoth.extractRawText({ path })`, giving `value`. -/
def extractRawText (env : Env) (path : String) : Js String := do
  record (.extractRawText path)
  liftExcept (env.extractRawText path)

/-- The handler of `POST /generate-from-image`. -/
def generateFromImage (env : Env) (req : FileRequest) : Js Unit :=
  let prompt := jsOr req.prompt "Describe the image"
  match req.file with
  | none => resStatusJson 400 [("error", "No image file uploaded.")]
  | some file =>
    Js.tryCatchFinally
      (do
        let imagePart ← fileToGenerativePart env file.path file.mimetype
        let result ← generateContent env (.pair prompt imagePart)
        let response := result.response
        let outputText ← responseText response
        resJson [("output", outputText)])
      (fun error => do
        consoleError "Error generating from image:" error
        resStatusJson 500
          [("error", "Failed to generate from image"), ("details", error.message)])
      (match req.file with
        | some f => unlink env f.path
        | none => pure ())

/-- The handler of `POST /generate-from-document`. -/
def generateFromDocument (env : Env) (req : FileRequest) : Js Unit :=
  let prompt := jsOr req.prompt "Analyze this document:"
  match req.file with
  | none => resStatusJson 400 [("error", "No document file uploaded.")]
  | some file =>
    let filePath := file.path
    Js.tryCatchFinally
      (do
        let extractedText ← extractRawText env filePath
        let fullPrompt := prompt ++ "\n\n---\n\n" ++ extractedText
        let result ← generateContent env (.single (.str fullPrompt))
        let response := result.response
        let outputText ← responseText response
        resJson [("output", outputText)])
      (fun error => do
        consoleError "Error generating from document:" error
        resStatusJson 500
          [("error", "Failed to generate from document"), ("details", error.message)])
      (match req.file with
        | some _ => unlink env filePath
        | none => pure ())

/-- The handler of `POST /generate-from-audio`. -/
def generateFromAudio (env : Env) (req : FileRequest) : Js Unit :=
  let prompt := jsOr req.prompt "Transcribe this audio:"
  match req.file with
  | none => resStatusJson 400 [("error", "No audio file uploaded.")]
  | some file =>
    Js.tryCatchFinally
      (do
        let audioPart ← fileToGenerativePart env file.path file.mimetype
        let result ← generateContent env (.pair prompt audioPart)
        let response := result.response
        let outputText ← responseText response
        resJson [("output", outputText)])
      (fun error => do
        consoleError "Error generating from audio:" error
        resStatusJson 500
          [("error", "Failed to generate from audio"), ("details", error.message)])
      (match req.file with
        | some f => unlink env f.path
        | none => pure ())

/-- The three routes that take an upload. -/
inductive FileRoute where
  | image
  | document
  | audio
  deriving DecidableEq, Repr

/-- The routing table of the file routes. -/
def fileRoute : FileRoute → Env → FileRequest → Js Unit
  | .image => generateFromImage
  | .document => generateFromDocument
  | .audio => generateFromAudio

/-- An incoming request together with the route it was posted to. -/
inductive Call where
  | text (req : TextRequest)
  | file (route : FileRoute) (req : FileRequest)
  deriving DecidableEq, Repr

/-- The application: each request goes to the handler of its route. -/
def app (env : Env) : Call → Js Unit
  | .text req => generateText env req
  | .file route req => fileRoute route env req

/-! ## Vocabulary of the specification -/

/-- The default prompt the specification names for each file route. -/
def defaultPrompt : FileRoute → String
  | .image => "Describe the image"
  | .document => "Analyze this document:"
  | .audio => "Transcribe this audio:"

/-- The message of the 400 response for a missing attachment. -/
def missingFileMessage : FileRoute → String
  | .image => "No image file uploaded."
  | .document => "No document file uploaded."
  | .audio => "No audio file uploaded."

/-- The fixed message of the 500 response of each route. -/
def failureMessage : Call → String
  | .text _ => "Failed to generate text"
  | .file .image _ => "Failed to generate from image"
  | .file .document _ => "Failed to generate from document"
  | .file .audio _ => "Failed to generate from audio"

/-- The inputs the model client was called with, in order. -/
def modelInputs (calls : List Event) : List ModelInput :=
  calls.filterMap fun e =>
    match e with
    | .generateContent input => some input
    | _ => none

/-- The paths `fs.unlink` was called on, in order. -/
def unlinkedPaths (calls : List Event) : List String :=
  calls.filterMap fun e =>
    match e with
    | .unlink path => some path
    | _ => none

/-- The paths handed to the content encoder (`readFileSync`) or to the
document text extractor, in order. -/
def attachmentReads (calls : List Event) : List String :=
  calls.filterMap fun e =>
    match e with
    | .readFileSync path => some path
    | .extractRawText path => some path
    | _ => none

/-- Step 3 of the dispatcher as the specification words it, for a file route
with prompt `prompt`: image and audio send `[prompt, InlineContent]`, the
document route sends prompt, separator and extracted text as one string. -/
def buildInput (env : Env) (route : FileRoute) (prompt : String) (up : Upload) :
    Except JsError ModelInput :=
  match route with
  | .document =>
    match env.extractRawText up.path with
    | .ok text => .ok (.single (.str (prompt ++ "\n\n---\n\n" ++ text)))
    | .error e => .error e
  | _ =>
    match env.readFileSync up.path with
    | .ok bytes =>
      .ok (.pair prompt { inlineData := { data := toBase64 bytes, mimeType := up.mimetype } })
    | .error e => .error e

/-- The prompt a file route works with: the prompt of the body when it is
present and not empty, the default of the route otherwise. -/
def effectivePrompt (route : FileRoute) (req : FileRequest) : String :=
  match req.prompt with
  | some p => if p = "" then defaultPrompt route else p
  | none => defaultPrompt route

/-- Steps 1 to 3 of the dispatcher as the specification words them: `none`
when validation fails (falsy prompt on the text route, no attachment on a
file route), otherwise the model input or the failure to build it. -/
def assembleInput (env : Env) : Call → Option (Except JsError ModelInput)
  | .text req => if req.prompt.truthy then some (.ok (.single req.prompt)) else none
  | .file route req =>
    match req.file with
    | none => none
    | some up => some (buildInput env route (effectivePrompt route req) up)

/-- Step 7 of the dispatcher: release the upload when there is one. -/
def release (env : Env) : Call → Js Unit
  | .text _ => Js.pure ()
  | .file _ req =>
    match req.file with
    | some up => unlink env up.path
    | none => Js.pure ()

/-- The calls made to read the attachment while building the model input. -/
def readEvents : Call → List Event
  | .text _ => []
  | .file .document req => (req.file.map fun up => Event.extractRawText up.path).toList
  | .file _ req => (req.file.map fun up => Event.readFileSync up.path).toList

/-- The call a file route makes to read the attachment. -/
def readEvent : FileRoute → String → Event
  | .document, path => .extractRawText path
  | _, path => .readFileSync path

/-- The label each handler passes to `console.error` in its catch block. -/
def errorLabel : Call → String
  | .text _ => "Error generating text:"
  | .file .image _ => "Error generating from image:"
  | .file .document _ => "Error generating from document:"
  | .file .audio _ => "Error generating from audio:"

/-- A model client that answers every input with the text `Hello`. -/
def helloModel : ModelInput → Except JsError GenerateContentResult :=
  fun _ => .ok { response := { text := .ok "Hello" } }

/-- Collaborators that all succeed: the model answers `Hello`, every staged
file holds the bytes of `Man`, every document extracts to `Body text`, and
deletions succeed. -/
def sampleEnv : Env where
  generateContent := helloModel
  readFileSync := fun _ => .ok [77, 97, 110]
  extractRawText := fun _ => .ok "Body text"
  unlink := fun _ => none

/-- Collaborators whose model client rejects every input. -/
def failingEnv : Env where
  generateContent := fun _ => .error { message := "quota exceeded" }
  readFileSync := fun _ => .ok [77, 97, 110]
  extractRawText := fun _ => .ok "Body text"
  unlink := fun _ => some { message := "EPERM" }

/-- A staged upload. -/
def sampleUpload : Upload := { path := "uploads/3f2a", mimetype := "image/png" }

/-- A world in which the sample upload is staged and nothing has happened. -/
def sampleWorld : World := { files := ["uploads/3f2a"], calls := [], responses := [] }

/-! ## Auxiliary facts -/

theorem Js.pure_run {α : Type} (a : α) (w : World) : Js.pure a w = (.ok a, w) := rfl

theorem Js.bind_run {α β : Type} (m : Js α) (f : α → Js β) (w : World) :
    Js.bind m f w =
      match (m w).1 with
      | .ok a => f a (m w).2
      | .error e => (.error e, (m w).2) := rfl

theorem Js.tryCatchFinally_run {α : Type} (body : Js α) (handler : JsError → Js α)
    (fin : Js Unit) (w : World) :
    Js.tryCatchFinally body handler fin w =
      match (fin (match (body w).1 with
          | .ok a => (Except.ok a, (body w).2)
          | .error e => handler e (body w).2).2).1 with
      | .ok _ =>
        ((match (body w).1 with
          | .ok a => (Except.ok a, (body w).2)
          | .error e => handler e (body w).2).1,
         (fin (match (body w).1 with
          | .ok a => (Except.ok a, (body w).2)
          | .error e => handler e (body w).2).2).2)
      | .error e =>
        (.error e, (fin (match (body w).1 with
          | .ok a => (Except.ok a, (body w).2)
          | .error e => handler e (body w).2).2).2) := rfl

theorem record_run (e : Event) (w : World) :
    record e w = (.ok (), { w with calls := w.calls ++ [e] }) := rfl

theorem liftExcept_run {α : Type} (r : Except JsError α) (w : World) :
    liftExcept r w = (r, w) := rfl

theorem resStatusJson_run (status : Nat) (body : List (String × String)) (w : World) :
    resStatusJson status body w =
      (.ok (), { w with responses := w.responses ++ [{ status := status, body := body }] }) :=
  rfl

theorem modelInputs_append (xs ys : List Event) :
    modelInputs (xs ++ ys) = modelInputs xs ++ modelInputs ys := by
  simp [modelInputs]

theorem unlinkedPaths_append (xs ys : List Event) :
    unlinkedPaths (xs ++ ys) = unlinkedPaths xs ++ unlinkedPaths ys := by
  simp [unlinkedPaths]

theorem attachmentReads_append (xs ys : List Event) :
    attachmentReads (xs ++ ys) = attachmentReads xs ++ attachmentReads ys := by
  simp [attachmentReads]

theorem jsOr_defaultPrompt (route : FileRoute) (req : FileRequest) :
    jsOr req.prompt (defaultPrompt route) = effectivePrompt route req := by
  unfold jsOr effectivePrompt
  cases req.prompt with
  | none => rfl
  | some p => by_cases hp : p = "" <;> simp [hp]

theorem unlink_run (env : Env) (path : String) (w : World) :
    unlink env path w =
      (.ok (),
        match env.unlink path with
        | some err =>
          { w with calls := w.calls ++ [.unlink path,
              .consoleError "Error deleting temp file:" err.message] }
        | none =>
          { w with calls := w.calls ++ [.unlink path],
                   files := w.files.filter (fun f => f != path) }) := by
  cases hu : env.unlink path <;>
    simp [unlink, hu, bind, Js.bind_run, record_run, consoleError]

theorem fileRoute_build_error (route : FileRoute) (env : Env) (req : FileRequest) (w : World)
    (up : Upload) (e : JsError) (h : req.file = some up)
    (hb : buildInput env route (jsOr req.prompt (defaultPrompt route)) up = .error e) :
    fileRoute route env req w =
      unlink env up.path
        { w with
          calls := w.calls ++ [readEvent route up.path,
            .consoleError (errorLabel (.file route req)) e.message],
          responses := w.responses ++
            [{ status := 500,
               body := [("error", failureMessage (.file route req)),
                        ("details", e.message)] }] } := by
  cases route <;> simp only [buildInput] at hb <;> split at hb <;>
    simp_all [fileRoute, generateFromImage, generateFromDocument, generateFromAudio,
      Js.tryCatchFinally_run, fileToGenerativePart, readFileSync, extractRawText,
      resStatusJson_run, consoleError, unlink_run, defaultPrompt, readEvent, errorLabel,
      failureMessage, record_run, liftExcept_run, bind, Js.bind_run, pure, Js.pure_run]

theorem fileRoute_model_error (route : FileRoute) (env : Env) (req : FileRequest) (w : World)
    (up : Upload) (input : ModelInput) (e : JsError) (h : req.file = some up)
    (hb : buildInput env route (jsOr req.prompt (defaultPrompt route)) up = .ok input)
    (hg : env.generateContent input = .error e) :
    fileRoute route env req w =
      unlink env up.path
        { w with
          calls := w.calls ++ [readEvent route up.path, .generateContent input,
            .consoleError (errorLabel (.file route req)) e.message],
          responses := w.responses ++
            [{ status := 500,
               body := [("error", failureMessage (.file route req)),
                        ("details", e.message)] }] } := by
  cases route <;> simp only [buildInput] at hb <;> split at hb <;>
    simp_all [fileRoute, generateFromImage, generateFromDocument, generateFromAudio,
      Js.tryCatchFinally_run, fileToGenerativePart, readFileSync, extractRawText,
      generateContent, responseText, resJson,
      resStatusJson_run, consoleError, unlink_run, defaultPrompt, readEvent, errorLabel,
      failureMessage, record_run, liftExcept_run, bind, Js.bind_run, pure, Js.pure_run]

theorem fileRoute_text_error (route : FileRoute) (env : Env) (req : FileRequest) (w : World)
    (up : Upload) (input : ModelInput) (r : GenerateContentResult) (e : JsError)
    (h : req.file = some up)
    (hb : buildInput env route (jsOr req.prompt (defaultPrompt route)) up = .ok input)
    (hg : env.generateContent input = .ok r) (ht : r.response.text = .error e) :
    fileRoute route env req w =
      unlink env up.path
        { w with
          calls := w.calls ++ [readEvent route up.path, .generateContent input,
            .consoleError (errorLabel (.file route req)) e.message],
          responses := w.responses ++
            [{ status := 500,
               body := [("error", failureMessage (.file route req)),
                        ("details", e.message)] }] } := by
  cases route <;> simp only [buildInput] at hb <;> split at hb <;>
    simp_all [fileRoute, generateFromImage, generateFromDocument, generateFromAudio,
      Js.tryCatchFinally_run, fileToGenerativePart, readFileSync, extractRawText,
      generateContent, responseText, resJson,
      resStatusJson_run, consoleError, unlink_run, defaultPrompt, readEvent, errorLabel,
      failureMessage, record_run, liftExcept_run, bind, Js.bind_run, pure, Js.pure_run]

theorem fileRoute_success (route : FileRoute) (env : Env) (req : FileRequest) (w : World)
    (up : Upload) (input : ModelInput) (r : GenerateContentResult) (t : String)
    (h : req.file = some up)
    (hb : buildInput env route (jsOr req.prompt (defaultPrompt route)) up = .ok input)
    (hg : env.generateContent input = .ok r) (ht : r.response.text = .ok t) :
    fileRoute route env req w =
      unlink env up.path
        { w with
          calls := w.calls ++ [readEvent route up.path, .generateContent input],
          responses := w.responses ++ [{ status := 200, body := [("output", t)] }] } := by
  cases route <;> simp only [buildInput] at hb <;> split at hb <;>
    simp_all [fileRoute, generateFromImage, generateFromDocument, generateFromAudio,
      Js.tryCatchFinally_run, fileToGenerativePart, readFileSync, extractRawText,
      generateContent, responseText, resJson,
      resStatusJson_run, consoleError, unlink_run, defaultPrompt, readEvent, errorLabel,
      failureMessage, record_run, liftExcept_run, bind, Js.bind_run, pure, Js.pure_run]

theorem release_run (env : Env) (call : Call) (w : World) :
    (release env call w).1 = .ok () ∧
    (release env call w).2.responses = w.responses ∧
    modelInputs (release env call w).2.calls = modelInputs w.calls ∧
    attachmentReads (release env call w).2.calls = attachmentReads w.calls := by
  cases call with
  | text req => simp [release, Js.pure_run]
  | file route req =>
    cases hf : req.file with
    | none => simp [release, hf, Js.pure_run]
    | some up =>
      cases hu : env.unlink up.path <;>
        simp [release, hf, unlink_run, hu, modelInputs, attachmentReads]

theorem generateText_run_model_error (env : Env) (req : TextRequest) (w : World) (e : JsError)
    (hp : req.prompt.truthy = true)
    (hg : env.generateContent (.single req.prompt) = .error e) :
    generateText env req w =
      (.ok (), { w with
        calls := w.calls ++ [.generateContent (.single req.prompt),
          .consoleError "Error generating text:" e.message],
        responses := w.responses ++
          [{ status := 500,
             body := [("error", "Failed to generate text"), ("details", e.message)] }] }) := by
  simp [generateText, jsNot, hp, hg, Js.tryCatch, Js.tryCatchFinally_run, generateContent,
    responseText, resJson, resStatusJson_run, consoleError, record_run, liftExcept_run, bind,
    Js.bind_run, Js.pure_run]

theorem generateText_run_text_error (env : Env) (req : TextRequest) (w : World)
    (r : GenerateContentResult) (e : JsError) (hp : req.prompt.truthy = true)
    (hg : env.generateContent (.single req.prompt) = .ok r) (ht : r.response.text = .error e) :
    generateText env req w =
      (.ok (), { w with
        calls := w.calls ++ [.generateContent (.single req.prompt),
          .consoleError "Error generating text:" e.message],
        responses := w.responses ++
          [{ status := 500,
             body := [("error", "Failed to generate text"), ("details", e.message)] }] }) := by
  simp [generateText, jsNot, hp, hg, ht, Js.tryCatch, Js.tryCatchFinally_run, generateContent,
    responseText, resJson, resStatusJson_run, consoleError, record_run, liftExcept_run, bind,
    Js.bind_run, Js.pure_run]

theorem generateText_run_success (env : Env) (req : TextRequest) (w : World)
    (r : GenerateContentResult) (t : String) (hp : req.prompt.truthy = true)
    (hg : env.generateContent (.single req.prompt) = .ok r) (ht : r.response.text = .ok t) :
    generateText env req w =
      (.ok (), { w with
        calls := w.calls ++ [.generateContent (.single req.prompt)],
        responses := w.responses ++ [{ status := 200, body := [("output", t)] }] }) := by
  simp [generateText, jsNot, hp, hg, ht, Js.tryCatch, Js.tryCatchFinally_run, generateContent,
    responseText, resJson, resStatusJson_run, consoleError, record_run, liftExcept_run, bind,
    Js.bind_run, Js.pure_run]

theorem readEvents_file (route : FileRoute) (req : FileRequest) (up : Upload)
    (h : req.file = some up) : readEvents (.file route req) = [readEvent route up.path] := by
  cases route <;> simp [readEvents, readEvent, h]

theorem app_run_build_error (env : Env) (call : Call) (w : World) (e : JsError)
    (hin : assembleInput env call = some (.error e)) :
    app env call w =
      release env call
        { w with
          calls := w.calls ++ readEvents call ++ [.consoleError (errorLabel call) e.message],
          responses := w.responses ++
            [{ status := 500,
               body := [("error", failureMessage call), ("details", e.message)] }] } := by
  cases call with
  | text req =>
    simp only [assembleInput] at hin
    split at hin <;> simp at hin
  | file route req =>
    cases hf : req.file with
    | none => simp [assembleInput, hf] at hin
    | some up =>
      simp only [assembleInput, hf, Option.some.injEq] at hin
      rw [← jsOr_defaultPrompt] at hin
      simp [app, release, hf, readEvents_file route req up hf,
        fileRoute_build_error route env req w up e hf hin]

theorem app_run_model_error (env : Env) (call : Call) (w : World) (input : ModelInput)
    (e : JsError) (hin : assembleInput env call = some (.ok input))
    (hg : env.generateContent input = .error e) :
    app env call w =
      release env call
        { w with
          calls := w.calls ++ readEvents call ++ [.generateContent input,
            .consoleError (errorLabel call) e.message],
          responses := w.responses ++
            [{ status := 500,
               body := [("error", failureMessage call), ("details", e.message)] }] } := by
  cases call with
  | text req =>
    simp only [assembleInput] at hin
    split at hin
    · rename_i hp
      simp only [Option.some.injEq, Except.ok.injEq] at hin
      subst hin
      simp [app, release, readEvents, errorLabel, failureMessage, Js.pure_run,
        generateText_run_model_error env req w e hp hg]
    · simp at hin
  | file route req =>
    cases hf : req.file with
    | none => simp [assembleInput, hf] at hin
    | some up =>
      simp only [assembleInput, hf, Option.some.injEq] at hin
      rw [← jsOr_defaultPrompt] at hin
      simp [app, release, hf, readEvents_file route req up hf,
        fileRoute_model_error route env req w up input e hf hin hg]

theorem app_run_text_error (env : Env) (call : Call) (w : World) (input : ModelInput)
    (r : GenerateContentResult) (e : JsError)
    (hin : assembleInput env call = some (.ok input))
    (hg : env.generateContent input = .ok r) (ht : r.response.text = .error e) :
    app env call w =
      release env call
        { w with
          calls := w.calls ++ readEvents call ++ [.generateContent input,
            .consoleError (errorLabel call) e.message],
          responses := w.responses ++
            [{ status := 500,
               body := [("error", failureMessage call), ("details", e.message)] }] } := by
  cases call with
  | text req =>
    simp only [assembleInput] at hin
    split at hin
    · rename_i hp
      simp only [Option.some.injEq, Except.ok.injEq] at hin
      subst hin
      simp [app, release, readEvents, errorLabel, failureMessage, Js.pure_run,
        generateText_run_text_error env req w r e hp hg ht]
    · simp at hin
  | file route req =>
    cases hf : req.file with
    | none => simp [assembleInput, hf] at hin
    | some up =>
      simp only [assembleInput, hf, Option.some.injEq] at hin
      rw [← jsOr_defaultPrompt] at hin
      simp [app, release, hf, readEvents_file route req up hf,
        fileRoute_text_error route env req w up input r e hf hin hg ht]

theorem app_run_success (env : Env) (call : Call) (w : World) (input : ModelInput)
    (r : GenerateContentResult) (t : String)
    (hin : assembleInput env call = some (.ok input))
    (hg : env.generateContent input = .ok r) (ht : r.response.text = .ok t) :
    app env call w =
      release env call
        { w with
          calls := w.calls ++ readEvents call ++ [.generateContent input],
          responses := w.responses ++ [{ status := 200, body := [("output", t)] }] } := by
  cases call with
  | text req =>
    simp only [assembleInput] at hin
    split at hin
    · rename_i hp
      simp only [Option.some.injEq, Except.ok.injEq] at hin
      subst hin
      simp [app, release, readEvents, Js.pure_run,
        generateText_run_success env req w r t hp hg ht]
    · simp at hin
  | file route req =>
    cases hf : req.file with
    | none => simp [assembleInput, hf] at hin
    | some up =>
      simp only [assembleInput, hf, Option.some.injEq] at hin
      rw [← jsOr_defaultPrompt] at hin
      simp [app, release, hf, readEvents_file route req up hf,
        fileRoute_success route env req w up input r t hf hin hg ht]

theorem modelInputs_readEvents (call : Call) : modelInputs (readEvents call) = [] := by
  cases call with
  | text req => rfl
  | file route req =>
    obtain ⟨prompt, file⟩ := req
    cases route <;> cases file <;> rfl

theorem unlinkedPaths_readEvents (call : Call) : unlinkedPaths (readEvents call) = [] := by
  cases call with
  | text req => rfl
  | file route req =>
    obtain ⟨prompt, file⟩ := req
    cases route <;> cases file <;> rfl

theorem base64Digit_spec : ∀ i < 64, base64Value (base64Digit i) = i ∧ base64Digit i ≠ '=' := by
  decide

theorem base64Bytes_base64Chars (bytes : List Nat) (hb : ∀ x ∈ bytes, x < 256) :
    base64Bytes (base64Chars bytes) = bytes := by
  induction bytes using base64Chars.induct with
  | case1 => rfl
  | case2 a =>
    have ha : a < 256 := hb a (by simp)
    have h0 := base64Digit_spec (a / 4) (by omega)
    have h1 := base64Digit_spec (a % 4 * 16) (by omega)
    simp only [base64Chars, base64Bytes, if_true, h0.1, h1.1]
    congr 1
    omega
  | case3 a b =>
    have ha : a < 256 := hb a (by simp)
    have hb2 : b < 256 := hb b (by simp)
    have h0 := base64Digit_spec (a / 4) (by omega)
    have h1 := base64Digit_spec (a % 4 * 16 + b / 16) (by omega)
    have h2 := base64Digit_spec (b % 16 * 4) (by omega)
    simp only [base64Chars, base64Bytes, if_true, if_neg h2.2, h0.1, h1.1, h2.1]
    congr 1
    · omega
    · congr 1
      omega
  | case4 a b c rest ih =>
    have ha : a < 256 := hb a (by simp)
    have hb2 : b < 256 := hb b (by simp)
    have hc : c < 256 := hb c (by simp)
    have h0 := base64Digit_spec (a / 4) (by omega)
    have h1 := base64Digit_spec (a % 4 * 16 + b / 16) (by omega)
    have h2 := base64Digit_spec (b % 16 * 4 + c / 64) (by omega)
    have h3 := base64Digit_spec (c % 64) (by omega)
    have hrest : ∀ x ∈ rest, x < 256 := fun x hx => hb x (by simp [hx])
    simp only [base64Chars, base64Bytes, if_neg h2.2, if_neg h3.2, h0.1, h1.1, h2.1, h3.1,
      ih hrest]
    congr 1
    · omega
    · congr 1
      · omega
      · congr 1
        omega

theorem fromBase64_toBase64 (bytes : List Nat) (hb : ∀ x ∈ bytes, x < 256) :
    fromBase64 (toBase64 bytes) = bytes := by
  simp only [fromBase64, toBase64]
  exact base64Bytes_base64Chars bytes hb

theorem assembleInput_file (env : Env) (route : FileRoute) (req : FileRequest) (up : Upload)
    (h : req.file = some up) :
    assembleInput env (.file route req) =
      some (buildInput env route (effectivePrompt route req) up) := by
  simp [assembleInput, h]

theorem app_built_modelInputs (env : Env) (call : Call) (w : World) (input : ModelInput)
    (hin : assembleInput env call = some (.ok input)) :
    modelInputs (app env call w).2.calls = modelInputs w.calls ++ [input] := by
  cases hg : env.generateContent input with
  | error e =>
    rw [app_run_model_error env call w input e hin hg, (release_run env call _).2.2.1]
    simp [modelInputs_append, modelInputs_readEvents]
    simp [modelInputs]
  | ok r =>
    cases ht : r.response.text with
    | error e =>
      rw [app_run_text_error env call w input r e hin hg ht, (release_run env call _).2.2.1]
      simp [modelInputs_append, modelInputs_readEvents]
      simp [modelInputs]
    | ok t =>
      rw [app_run_success env call w input r t hin hg ht, (release_run env call _).2.2.1]
      simp [modelInputs_append, modelInputs_readEvents]
      simp [modelInputs]

theorem fileRoute_shape (route : FileRoute) (env : Env) (req : FileRequest) (w : World)
    (up : Upload) (h : req.file = some up) :
    ∃ evs resp, unlinkedPaths evs = [] ∧
      ∀ u : String → Option JsError,
        fileRoute route { env with unlink := u } req w =
          unlink { env with unlink := u } up.path
            { w with calls := w.calls ++ evs, responses := w.responses ++ [resp] } := by
  cases hb : buildInput env route (jsOr req.prompt (defaultPrompt route)) up with
  | error e =>
    refine ⟨_, _, ?_, fun u => fileRoute_build_error route _ req w up e h hb⟩
    cases route <;> rfl
  | ok input =>
    cases hg : env.generateContent input with
    | error e =>
      refine ⟨_, _, ?_, fun u => fileRoute_model_error route _ req w up input e h hb hg⟩
      cases route <;> rfl
    | ok r =>
      cases ht : r.response.text with
      | error e =>
        refine ⟨_, _, ?_, fun u => fileRoute_text_error route _ req w up input r e h hb hg ht⟩
        cases route <;> rfl
      | ok t =>
        refine ⟨_, _, ?_, fun u => fileRoute_success route _ req w up input r t h hb hg ht⟩
        cases route <;> rfl

/-- C1: a request to `/generate-text` whose body has no `prompt` field is
answered with status 400 and body `error: 'Prompt is required.'`, the handler
returns normally, and the model client is not called (the trace of calls is
unchanged). -/
theorem generateText_missing_prompt (env : Env) (req : TextRequest) (w : World)
    (h : req.prompt = .undefined) :
    (generateText env req w).1 = .ok () ∧
    (generateText env req w).2.responses =
      w.responses ++ [{ status := 400, body := [("error", "Prompt is required.")] }] ∧
    (generateText env req w).2.calls = w.calls ∧
    modelInputs (generateText env req w).2.calls = modelInputs w.calls := by
  simp [generateText, h, jsNot, JsValue.truthy, resStatusJson]

/-- C1 at a concrete request: the body has no prompt. -/
theorem generateText_missing_prompt_witness :
    (generateText sampleEnv { prompt := .undefined } sampleWorld).1 = .ok () ∧
    (generateText sampleEnv { prompt := .undefined } sampleWorld).2.responses =
      sampleWorld.responses ++ [{ status := 400, body := [("error", "Prompt is required.")] }] ∧
    (generateText sampleEnv { prompt := .undefined } sampleWorld).2.calls = sampleWorld.calls ∧
    modelInputs (generateText sampleEnv { prompt := .undefined } sampleWorld).2.calls =
      modelInputs sampleWorld.calls :=
  generateText_missing_prompt sampleEnv { prompt := .undefined } sampleWorld rfl

/-- C2: on each file route, a request without a staged attachment is answered
with status 400 whatever its prompt, the handler returns normally, and nothing
is called: neither the model client, nor the encoder, nor the extractor. -/
theorem fileRoute_missing_attachment (route : FileRoute) (env : Env) (req : FileRequest)
    (w : World) (h : req.file = none) :
    (fileRoute route env req w).1 = .ok () ∧
    (fileRoute route env req w).2.responses =
      w.responses ++ [{ status := 400, body := [("error", missingFileMessage route)] }] ∧
    (fileRoute route env req w).2.calls = w.calls ∧
    modelInputs (fileRoute route env req w).2.calls = modelInputs w.calls ∧
    attachmentReads (fileRoute route env req w).2.calls = attachmentReads w.calls := by
  cases route <;>
    simp [fileRoute, generateFromImage, generateFromDocument, generateFromAudio, h,
      resStatusJson, missingFileMessage]

/-- C2 at a concrete request: an image request with a prompt and no file. -/
theorem fileRoute_missing_attachment_witness :
    (fileRoute .image sampleEnv { prompt := some "What is this?", file := none } sampleWorld).1
      = .ok () ∧
    (fileRoute .image sampleEnv { prompt := some "What is this?", file := none }
      sampleWorld).2.responses =
      [{ status := 400, body := [("error", "No image file uploaded.")] }] ∧
    (fileRoute .image sampleEnv { prompt := some "What is this?", file := none }
      sampleWorld).2.calls = [] :=
  have h := fileRoute_missing_attachment .image sampleEnv
    { prompt := some "What is this?", file := none } sampleWorld rfl
  ⟨h.1, h.2.1, h.2.2.1⟩

/-- C3: on each file route, a request with a staged upload makes exactly one
call of `fs.unlink`, on the staged path, whatever the model client, the
encoder and the extractor do; and when that deletion succeeds the staged path
is not in the upload directory afterwards. -/
theorem fileRoute_unlinks_once (route : FileRoute) (env : Env) (req : FileRequest)
    (w : World) (up : Upload) (h : req.file = some up) :
    unlinkedPaths (fileRoute route env req w).2.calls = unlinkedPaths w.calls ++ [up.path] ∧
    (env.unlink up.path = none → up.path ∉ (fileRoute route env req w).2.files) := by
  obtain ⟨evs, resp, hevs, hrun⟩ := fileRoute_shape route env req w up h
  have hrun2 := hrun env.unlink
  have henv : ({ env with unlink := env.unlink } : Env) = env := by cases env; rfl
  rw [henv] at hrun2
  rw [hrun2, unlink_run]
  constructor
  · cases hu : env.unlink up.path <;> simp [unlinkedPaths_append, hevs] <;> simp [unlinkedPaths]
  · intro hu
    simp [hu]

/-- C3 at concrete requests: a document request whose model call fails and
whose deletion succeeds. -/
theorem fileRoute_unlinks_once_witness :
    unlinkedPaths (fileRoute .document { failingEnv with unlink := fun _ => none }
      { prompt := none, file := some sampleUpload } sampleWorld).2.calls = ["uploads/3f2a"] ∧
    "uploads/3f2a" ∉ (fileRoute .document { failingEnv with unlink := fun _ => none }
      { prompt := none, file := some sampleUpload } sampleWorld).2.files :=
  have h := fileRoute_unlinks_once .document { failingEnv with unlink := fun _ => none }
    { prompt := none, file := some sampleUpload } sampleWorld sampleUpload rfl
  ⟨h.1, h.2 rfl⟩

/-- C5: on each of the four routes, a request that passes validation, whose
model input is built and whose model call returns the text `t`, is answered
with status 200 and body `output: t`; the handler returns normally and calls
the model client exactly once, with the assembled input, which on
`/generate-text` is the prompt of the request alone. -/
theorem app_success_response (env : Env) (call : Call) (w : World) (input : ModelInput)
    (r : GenerateContentResult) (t : String)
    (hin : assembleInput env call = some (.ok input))
    (hg : env.generateContent input = .ok r) (ht : r.response.text = .ok t) :
    (app env call w).1 = .ok () ∧
    (app env call w).2.responses =
      w.responses ++ [{ status := 200, body := [("output", t)] }] ∧
    modelInputs (app env call w).2.calls = modelInputs w.calls ++ [input] ∧
    (∀ req, call = .text req → input = .single req.prompt) := by
  refine ⟨?_, ?_, app_built_modelInputs env call w input hin, ?_⟩
  · rw [app_run_success env call w input r t hin hg ht]
    exact (release_run env call _).1
  · rw [app_run_success env call w input r t hin hg ht, (release_run env call _).2.1]
  · intro req hc
    subst hc
    simp only [assembleInput] at hin
    split at hin
    · simpa using hin.symm
    · simp at hin

/-- C5 at concrete requests: the text prompt `Hi` and an image upload, the
model answering `Hello`. -/
theorem app_success_response_witness :
    (app sampleEnv (.text { prompt := .str "Hi" }) sampleWorld).1 = .ok () ∧
    (app sampleEnv (.text { prompt := .str "Hi" }) sampleWorld).2.responses =
      [{ status := 200, body := [("output", "Hello")] }] ∧
    modelInputs (app sampleEnv (.text { prompt := .str "Hi" }) sampleWorld).2.calls =
      [.single (.str "Hi")] ∧
    (app sampleEnv (.file .image { prompt := none, file := some sampleUpload })
      sampleWorld).2.responses = [{ status := 200, body := [("output", "Hello")] }] :=
  have h := app_success_response sampleEnv (.text { prompt := .str "Hi" }) sampleWorld
    (.single (.str "Hi")) { response := { text := .ok "Hello" } } "Hello" rfl rfl rfl
  have h2 := app_success_response sampleEnv
    (.file .image { prompt := none, file := some sampleUpload }) sampleWorld
    (.pair "Describe the image" { inlineData := { data := "TWFu", mimeType := "image/png" } })
    { response := { text := .ok "Hello" } } "Hello" rfl rfl rfl
  ⟨h.1, h.2.1, h.2.2.1, h2.2.1⟩

/-- C6: on each of the four routes, a request that passes validation and for
which building the model input, the model call, or reading the text of its
response throws an error `e`, is answered with status 500 and body
`error: <fixed message of the route>, details: e.message`; the handler itself
returns normally. -/
theorem app_failure_response (env : Env) (call : Call) (w : World) (e : JsError)
    (hfail : assembleInput env call = some (.error e) ∨
      ∃ input, assembleInput env call = some (.ok input) ∧
        (env.generateContent input = .error e ∨
          ∃ r, env.generateContent input = .ok r ∧ r.response.text = .error e)) :
    (app env call w).1 = .ok () ∧
    (app env call w).2.responses =
      w.responses ++
        [{ status := 500, body := [("error", failureMessage call), ("details", e.message)] }] := by
  rcases hfail with hin | ⟨input, hin, hg | ⟨r, hg, ht⟩⟩
  · rw [app_run_build_error env call w e hin]
    exact ⟨(release_run env call _).1, (release_run env call _).2.1⟩
  · rw [app_run_model_error env call w input e hin hg]
    exact ⟨(release_run env call _).1, (release_run env call _).2.1⟩
  · rw [app_run_text_error env call w input r e hin hg ht]
    exact ⟨(release_run env call _).1, (release_run env call _).2.1⟩

/-- C6 at a concrete request: an audio request whose model call is rejected. -/
theorem app_failure_response_witness :
    (app failingEnv (.file .audio { prompt := none, file := some sampleUpload })
      sampleWorld).1 = .ok () ∧
    (app failingEnv (.file .audio { prompt := none, file := some sampleUpload })
      sampleWorld).2.responses =
      [{ status := 500,
         body := [("error", "Failed to generate from audio"), ("details", "quota exceeded")] }] :=
  app_failure_response failingEnv (.file .audio { prompt := none, file := some sampleUpload })
    sampleWorld { message := "quota exceeded" }
    (Or.inr ⟨.pair "Transcribe this audio:"
      { inlineData := { data := "TWFu", mimeType := "image/png" } }, rfl, Or.inl rfl⟩)

/-- C7 (as stated, refuted): an image request whose body has the prompt `""`
and a staged attachment. The claim predicts that this prompt is the one used
to build the model input; the handler builds the input with the default
prompt `Describe the image`. -/
theorem fileRoute_empty_prompt_counterexample :
    buildInput sampleEnv .image "" sampleUpload =
      .ok (.pair "" { inlineData := { data := "TWFu", mimeType := "image/png" } }) ∧
    modelInputs (fileRoute .image sampleEnv
      { prompt := some "", file := some sampleUpload } sampleWorld).2.calls =
      [.pair "Describe the image" { inlineData := { data := "TWFu", mimeType := "image/png" } }] ∧
    modelInputs (fileRoute .image sampleEnv
      { prompt := some "", file := some sampleUpload } sampleWorld).2.calls ≠
      modelInputs sampleWorld.calls ++
        [.pair "" { inlineData := { data := "TWFu", mimeType := "image/png" } }] :=
  ⟨rfl, by decide, by decide⟩

/-- C7 (amended): on each file route, for a request with a staged attachment,
the prompt used to build the model input is the default of the route
(`Describe the image`, `Analyze this document:`, `Transcribe this audio:`)
when the body has no prompt or an empty one, and the prompt of the body when
it has a non-empty one. -/
theorem fileRoute_prompt_used (route : FileRoute) (env : Env) (req : FileRequest) (w : World)
    (up : Upload) (h : req.file = some up) :
    (req.prompt = none ∨ req.prompt = some "" →
      ∀ input, buildInput env route (defaultPrompt route) up = .ok input →
        modelInputs (fileRoute route env req w).2.calls = modelInputs w.calls ++ [input]) ∧
    (∀ p, req.prompt = some p → p ≠ "" →
      ∀ input, buildInput env route p up = .ok input →
        modelInputs (fileRoute route env req w).2.calls = modelInputs w.calls ++ [input]) ∧
    defaultPrompt .image = "Describe the image" ∧
    defaultPrompt .document = "Analyze this document:" ∧
    defaultPrompt .audio = "Transcribe this audio:" := by
  refine ⟨?_, ?_, rfl, rfl, rfl⟩
  · intro hp input hb
    have he : effectivePrompt route req = defaultPrompt route := by
      rcases hp with hp | hp <;> simp [effectivePrompt, hp]
    have hin : assembleInput env (.file route req) = some (.ok input) := by
      rw [assembleInput_file env route req up h, he, hb]
    exact app_built_modelInputs env (.file route req) w input hin
  · intro p hp hne input hb
    have he : effectivePrompt route req = p := by simp [effectivePrompt, hp, hne]
    have hin : assembleInput env (.file route req) = some (.ok input) := by
      rw [assembleInput_file env route req up h, he, hb]
    exact app_built_modelInputs env (.file route req) w input hin

/-- C7 (amended) at concrete requests: an audio request without prompt and an
image request with the prompt `What is this?`. -/
theorem fileRoute_prompt_used_witness :
    modelInputs (fileRoute .audio sampleEnv
      { prompt := none, file := some sampleUpload } sampleWorld).2.calls =
      [.pair "Transcribe this audio:"
        { inlineData := { data := "TWFu", mimeType := "image/png" } }] ∧
    modelInputs (fileRoute .image sampleEnv
      { prompt := some "What is this?", file := some sampleUpload } sampleWorld).2.calls =
      [.pair "What is this?" { inlineData := { data := "TWFu", mimeType := "image/png" } }] :=
  ⟨(fileRoute_prompt_used .audio sampleEnv { prompt := none, file := some sampleUpload }
      sampleWorld sampleUpload rfl).1 (Or.inl rfl) _ rfl,
   (fileRoute_prompt_used .image sampleEnv
      { prompt := some "What is this?", file := some sampleUpload }
      sampleWorld sampleUpload rfl).2.1 "What is this?" rfl (by decide) _ rfl⟩

/-- C8: when the staged file of an upload holds the bytes `bytes`,
`fileToGenerativePart` on its path and declared MIME type returns the inline
content with `data` the base64 text of `bytes` and the MIME type unchanged;
decoding `data` gives `bytes` back; and on the image and audio routes the
model client is called with exactly the pair of the prompt and that content. -/
theorem fileToGenerativePart_inline_content (env : Env) (up : Upload) (bytes : List Nat)
    (w : World) (hread : env.readFileSync up.path = .ok bytes)
    (hbytes : ∀ x ∈ bytes, x < 256) :
    (fileToGenerativePart env up.path up.mimetype w).1 =
      .ok { inlineData := { data := toBase64 bytes, mimeType := up.mimetype } } ∧
    fromBase64 (toBase64 bytes) = bytes ∧
    (∀ route req, route ≠ .document → req.file = some up →
      modelInputs (fileRoute route env req w).2.calls =
        modelInputs w.calls ++
          [.pair (effectivePrompt route req)
            { inlineData := { data := toBase64 bytes, mimeType := up.mimetype } }]) := by
  refine ⟨?_, fromBase64_toBase64 bytes hbytes, ?_⟩
  · simp [fileToGenerativePart, readFileSync, hread, bind, Js.bind_run, record_run,
      liftExcept_run, pure, Js.pure_run]
  · intro route req hroute h
    have hin : assembleInput env (.file route req) =
        some (.ok (.pair (effectivePrompt route req)
          { inlineData := { data := toBase64 bytes, mimeType := up.mimetype } })) := by
      rw [assembleInput_file env route req up h]
      cases route
      · simp [buildInput, hread]
      · exact absurd rfl hroute
      · simp [buildInput, hread]
    exact app_built_modelInputs env (.file route req) w _ hin

/-- C8 at a concrete upload: the staged file holds the three bytes of `Man`. -/
theorem fileToGenerativePart_inline_content_witness :
    (fileToGenerativePart sampleEnv "uploads/3f2a" "image/png" sampleWorld).1 =
      .ok { inlineData := { data := "TWFu", mimeType := "image/png" } } ∧
    fromBase64 "TWFu" = [77, 97, 110] :=
  have h := fileToGenerativePart_inline_content sampleEnv sampleUpload [77, 97, 110]
    sampleWorld rfl (by decide)
  ⟨h.1, h.2.1⟩

/-- C9: on each file route, for a request with a staged upload, the handler
returns normally and sends the same responses whether the deletion of the
staged file succeeds or fails: the outcome of `fs.unlink` never reaches the
caller. -/
theorem fileRoute_response_ignores_unlink (route : FileRoute) (env : Env) (req : FileRequest)
    (w : World) (up : Upload) (h : req.file = some up) (u1 u2 : String → Option JsError) :
    (fileRoute route { env with unlink := u1 } req w).1 = .ok () ∧
    (fileRoute route { env with unlink := u2 } req w).1 = .ok () ∧
    (fileRoute route { env with unlink := u1 } req w).2.responses =
      (fileRoute route { env with unlink := u2 } req w).2.responses := by
  obtain ⟨evs, resp, _, hrun⟩ := fileRoute_shape route env req w up h
  rw [hrun u1, hrun u2, unlink_run, unlink_run]
  refine ⟨rfl, rfl, ?_⟩
  simp only []
  cases u1 up.path <;> cases u2 up.path <;> rfl

/-- C9 at a concrete request: the same image request with a deletion that
succeeds and with one that fails. -/
theorem fileRoute_response_ignores_unlink_witness :
    (fileRoute .image { sampleEnv with unlink := fun _ => none }
      { prompt := none, file := some sampleUpload } sampleWorld).2.responses =
    (fileRoute .image { sampleEnv with unlink := fun _ => some { message := "EPERM" } }
      { prompt := none, file := some sampleUpload } sampleWorld).2.responses :=
  (fileRoute_response_ignores_unlink .image sampleEnv
    { prompt := none, file := some sampleUpload } sampleWorld sampleUpload rfl
    (fun _ => none) (fun _ => some { message := "EPERM" })).2.2

end GeminiApi
